import Mathlib

/-
Shallow embedding of the YouTube to MP3 download pipeline in app.py, together
with theorems about its components: request validation, option building,
progress throttling, output resolution, error classification, filename
sanitization and working-directory cleanup.  Machine times are modelled as
natural numbers of milliseconds, so the 0.05 second throttle window of the
source becomes 50 time units.  Byte counts are naturals and progress
fractions are rationals.
-/

namespace YtMp3

/-- Boolean test that the first list starts with the second list. -/
def listStartsWith : List Char → List Char → Bool
  | _, [] => true
  | [], _ :: _ => false
  | a :: l, b :: m => a == b && listStartsWith l m

/-- Boolean test that sub occurs contiguously somewhere inside l. -/
def listHasSub (sub : List Char) (l : List Char) : Bool :=
  listStartsWith l sub ||
    match l with
    | [] => false
    | _ :: t => listHasSub sub t

/-- Substring test on strings: pat occurs inside s.  Models the Python
expression pat in s used by the error classifier. -/
def containsSub (s pat : String) : Bool :=
  listHasSub pat.data s.data

/-- Boolean test that s ends with pat, models the glob patterns of the form
star dot ext used on the working directory. -/
def strEndsWith (s pat : String) : Bool :=
  listStartsWith s.data.reverse pat.data.reverse

/-- ASCII lower casing of a string, used to model the case insensitive
regular expression match re.I of the validator. -/
def lowerStr (s : String) : String :=
  ⟨s.data.map Char.toLower⟩

/-- The whitespace characters removed by the Python str.strip method
(space, tab, newline, carriage return, vertical tab, form feed). -/
def pyWhitespaceChars : List Char :=
  [' ', '\t', '\n', '\r', Char.ofNat 11, Char.ofNat 12]

/-- Drop leading and trailing whitespace from a character list. -/
def stripList (l : List Char) : List Char :=
  ((l.dropWhile (fun c => pyWhitespaceChars.contains c)).reverse.dropWhile
    (fun c => pyWhitespaceChars.contains c)).reverse

/-- Python str.strip on strings. -/
def pyStrip (s : String) : String :=
  ⟨stripList s.data⟩

/-- The characters removed by sanitize_filename in app.py, the character
class of the regular expression there. -/
def forbiddenChars : List Char :=
  ['\\', '/', '*', '?', ':', '"', '<', '>', '|']

/-- Membership in the forbidden character class. -/
def isForbidden (c : Char) : Bool :=
  forbiddenChars.contains c

/-- Embedding of sanitize_filename from app.py: re.sub removes every run of
forbidden characters (equivalently every forbidden character) and the result
is stripped of leading and trailing whitespace. -/
def sanitize_filename (name : String) : String :=
  pyStrip ⟨name.data.filter (fun c => !isForbidden c)⟩

/-- Python truthiness fallback x or y for an optional string x: None and the
empty string both fall through to y. -/
def pyOrStr (x : Option String) (y : String) : String :=
  match x with
  | some s => if s = "" then y else s
  | none => y

/-- The title used for the offered download, from line 205 of app.py:
sanitize_filename applied to the info title with fallback youtube_audio. -/
def offeredTitle (rawTitle : Option String) : String :=
  sanitize_filename (pyOrStr rawTitle "youtube_audio")

/-- The file name of the offered download artifact, line 245 of app.py. -/
def downloadFileName (rawTitle : Option String) : String :=
  offeredTitle rawTitle ++ ".mp3"

/-- The MIME type of the offered download artifact, line 246 of app.py. -/
def downloadMime : String := "audio/mpeg"

/-- The success status message of line 240 of app.py; the rendering of the
byte size is abstracted as a string argument. -/
def successMessage (rawTitle : Option String) (sizeStr : String) (bitrate : Nat) : String :=
  "✅ Converted: " ++ offeredTitle rawTitle ++ ".mp3  •  Size: " ++ sizeStr ++
    "  •  Bitrate: " ++ toString bitrate ++ " kbps"

/-- The eight concrete string forms accepted by the anchored regular
expression of line 128 of app.py, written in lower case. -/
def acceptedUrlForms : List String :=
  ["http://youtube.com/", "http://youtu.be/",
   "http://www.youtube.com/", "http://www.youtu.be/",
   "https://youtube.com/", "https://youtu.be/",
   "https://www.youtube.com/", "https://www.youtu.be/"]

/-- The anchored case insensitive host pattern of line 128 of app.py applied
to a string: the string, lower cased, must start with one of the eight
accepted forms.  This is the meaning of the regular expression
caret https question colon slash slash optional www dot then youtube.com or
youtu.be then slash under re.match with re.I. -/
def regexMatchYt (s : String) : Bool :=
  acceptedUrlForms.any (fun p => listStartsWith (lowerStr s).data p.data)

/-- Embedding of the URL validation of line 128 of app.py: the pattern is
matched against the stripped URL. -/
def validate (url : String) : Bool :=
  regexMatchYt (pyStrip url)

/-- The user facing failure categories of the pipeline. -/
inductive FailureCategory
  | invalid_request
  | access_restricted
  | extraction_failed
  | conversion_failed
  | no_output
  | unknown
deriving DecidableEq, Repr

/-- The result of one pipeline run: either a produced MP3 artifact or a
classified failure with a detail message. -/
inductive PipelineResult
  | success (mp3File : String) (fileName : String) (mime : String) (bitrate : Nat)
  | failure (category : FailureCategory) (detail : String)
deriving DecidableEq, Repr

/-- The fixed detail text shown for 403 or Forbidden failures, lines 175
to 187 of app.py (condensed to its leading sentences). -/
def accessRestrictedDetail : String :=
  "Download failed due to access restrictions (403 Forbidden). " ++
    "This commonly occurs when deploying to cloud services like Streamlit Cloud " ++
    "due to IP-based restrictions from YouTube."

/-- The detail text shown for extraction failures, lines 189 to 199 of
app.py, with the raw message embedded after Error details. -/
def extractionFailedDetail (msg : String) : String :=
  "Video extraction failed. The video might be private or deleted, " ++
    "age-restricted, geo-blocked in this region, or from a livestream " ++
    "or premium content. Error details: " ++ msg

/-- Embedding of the error classification of lines 172 to 201 of app.py:
substring tests on the exception message, in source order. -/
def classify (msg : String) : FailureCategory × String :=
  if containsSub msg "403" || containsSub msg "Forbidden" then
    (FailureCategory.access_restricted, accessRestrictedDetail)
  else if containsSub msg "Unable to extract" || containsSub msg "Video unavailable" then
    (FailureCategory.extraction_failed, extractionFailedDetail msg)
  else
    (FailureCategory.unknown, "Download failed: " ++ msg)

/-- The ASCII single quote character used by the Python repr of a string. -/
def quoteChar : Char := Char.ofNat 39

/-- Python repr of a string: the string between single quotes. -/
def pyStrRepr (s : String) : String :=
  String.singleton quoteChar ++ s ++ String.singleton quoteChar

/-- Join a list of strings with a separator, as the Python str.join. -/
def joinSep (sep : String) : List String → String
  | [] => ""
  | [x] => x
  | x :: xs => x ++ sep ++ joinSep sep xs

/-- Python repr of a list of strings, as interpolated by the f-string of
line 228 of app.py. -/
def pyListRepr (l : List String) : String :=
  "[" ++ joinSep ", " (l.map pyStrRepr) ++ "]"

/-- The intermediate audio extensions scanned at line 222 of app.py. -/
def intermediateExts : List String :=
  ["m4a", "webm", "opus", "ogg", "wav", "aac"]

/-- The files matching the glob star dot mp3 of line 214 of app.py, in
directory listing order. -/
def mp3Matches (files : List String) : List String :=
  files.filter (fun f => strEndsWith f ".mp3")

/-- The files matching the intermediate audio globs of lines 221 to 223 of
app.py: the extension patterns are tried in order and all matches of each
pattern are appended. -/
def audioMatches (files : List String) : List String :=
  intermediateExts.foldl (fun acc ext => acc ++ files.filter (fun f => strEndsWith f ("." ++ ext))) []

/-- The conversion failure message of line 228 of app.py, listing the
candidate file names. -/
def convFailedDetail (names : List String) : String :=
  "Audio download succeeded but MP3 conversion failed. Found: " ++ pyListRepr names ++
    ". This suggests an FFmpeg configuration issue."

/-- The no output message of line 230 of app.py. -/
def noOutputDetail : String :=
  "No audio files found in output directory. The download may have failed."

/-- Embedding of the output resolution of lines 204 to 235 of app.py: pick
the first MP3 file in directory listing order; otherwise report conversion
failure when an intermediate audio file exists, and no output otherwise. -/
def resolveOutput (bitrate : Nat) (rawTitle : Option String) (files : List String) :
    PipelineResult :=
  match mp3Matches files with
  | f :: _ => PipelineResult.success f (downloadFileName rawTitle) downloadMime bitrate
  | [] =>
    match audioMatches files with
    | [] => PipelineResult.failure FailureCategory.no_output noOutputDetail
    | n :: ns => PipelineResult.failure FailureCategory.conversion_failed (convFailedDetail (n :: ns))

/-- The closure state of the progress hook of lines 136 to 155 of app.py:
cumulative downloaded bytes, the optional total byte estimate, and the time
of the last emitted update. -/
structure ProgressState where
  downloaded : Nat
  total : Option Nat
  lastUpdate : Nat
deriving DecidableEq, Repr

/-- The payload shown by an emitted progress notification. -/
inductive EmitMsg
  | downloadingKnown (downloaded total : Nat)
  | downloadingUnknown (downloaded : Nat)
  | converting
deriving DecidableEq, Repr

/-- One emitted progress notification: the time it was emitted, the fraction
passed to the progress bar, and its message payload. -/
structure Emission where
  time : Nat
  value : ℚ
  msg : EmitMsg
deriving DecidableEq, Repr

/-- A progress event delivered to the hook: the downloading events carry the
optional byte counters of the event dictionary, and every event carries the
wall clock time at which the hook runs. -/
inductive PEvent
  | downloading (now : Nat) (dbytes : Option Nat) (tbytes : Option Nat) (tbytesEst : Option Nat)
  | finished (now : Nat)
deriving DecidableEq, Repr

/-- Python truthiness fallback x or y for an optional number x: None and
zero both fall through to y. -/
def orNum (x : Option Nat) (y : Nat) : Nat :=
  match x with
  | some n => if n = 0 then y else n
  | none => y

/-- Python truthiness fallback chain for optional numbers. -/
def orOpt (x : Option Nat) (y : Option Nat) : Option Nat :=
  match x with
  | some n => if n = 0 then y else some n
  | none => y

/-- The notification emitted inside the throttle branch of lines 148 to 152
of app.py: a known total gives the capped fraction, an unknown or zero total
gives the indeterminate zero bar. -/
def emissionFor (now d : Nat) (t : Option Nat) : Emission :=
  match t with
  | some T =>
    if T = 0 then ⟨now, 0, EmitMsg.downloadingUnknown d⟩
    else ⟨now, min 1 ((d : ℚ) / (T : ℚ)), EmitMsg.downloadingKnown d T⟩
  | none => ⟨now, 0, EmitMsg.downloadingUnknown d⟩

/-- Embedding of one invocation of the hook of lines 140 to 155 of app.py:
a downloading event updates the byte counters, then emits one throttled
notification only when more than 50 time units passed since the last
emission; a finished event unconditionally emits the terminal converting
notification and leaves the state unchanged. -/
def hookStep (st : ProgressState) : PEvent → ProgressState × List Emission
  | PEvent.downloading now db tb tbe =>
    if 50 < now - st.lastUpdate then
      (⟨orNum db st.downloaded, orOpt tb (orOpt tbe st.total), now⟩,
        [emissionFor now (orNum db st.downloaded) (orOpt tb (orOpt tbe st.total))])
    else
      (⟨orNum db st.downloaded, orOpt tb (orOpt tbe st.total), st.lastUpdate⟩, [])
  | PEvent.finished now => (st, [⟨now, 1, EmitMsg.converting⟩])

/-- Run the hook over a whole sequence of progress events, collecting the
emitted notifications in order. -/
def runHook (st : ProgressState) : List PEvent → ProgressState × List Emission
  | [] => (st, [])
  | e :: es =>
    ((runHook (hookStep st e).1 es).1,
      (hookStep st e).2 ++ (runHook (hookStep st e).1 es).2)

/-- The wall clock time of a progress event. -/
def eventTime : PEvent → Nat
  | PEvent.downloading now _ _ _ => now
  | PEvent.finished now => now

/-- Whether a progress event is a downloading event. -/
def isDownloading : PEvent → Bool
  | PEvent.downloading _ _ _ _ => true
  | PEvent.finished _ => false

/-- Whether every event of the sequence is a downloading event. -/
def allDownloading (es : List PEvent) : Bool :=
  es.all isDownloading

/-- The type of the progress callback wired into the options. -/
def Hook : Type :=
  ProgressState → PEvent → ProgressState × List Emission

/-- One postprocessor entry of the options dictionary. -/
structure Postprocessor where
  key : String
  preferredcodec : String
  preferredquality : String
deriving DecidableEq, Repr

/-- The youtube extractor arguments of lines 80 to 85 of app.py. -/
structure ExtractorArgs where
  player_client : List String
  skip : List String
deriving DecidableEq, Repr

/-- The options dictionary built by build_ydl_opts in app.py. -/
structure YdlOpts where
  outtmpl : String
  noplaylist : Bool
  quiet : Bool
  no_warnings : Bool
  format : String
  progress_hooks : List Hook
  postprocessors : List Postprocessor
  postprocessor_args : List String
  verbose : Bool
  extract_flat : Bool
  writethumbnail : Bool
  writeinfojson : Bool
  http_headers : List (String × String)
  extractor_args : ExtractorArgs
  retries : Nat
  fragment_retries : Nat
  retry_sleep_http : Nat → Nat
  prefer_free_formats : Bool
  format_sort : List String

/-- The ordered fallback entries of the format selector of line 51 of
app.py, obtained by splitting the selector string at each slash. -/
def formatSelectors : List String :=
  ["bestaudio[ext=m4a]", "bestaudio[ext=webm]", "bestaudio", "best"]

/-- The format selector string of line 51 of app.py. -/
def formatString : String :=
  joinSep "/" formatSelectors

/-- Whether a selector entry requests audio only streams. -/
def isAudioOnlySelector (s : String) : Bool :=
  listStartsWith s.data ("bestaudio").data

/-- Modelled from the spec: the slash separated format selector of the
external extraction tool is an ordered fallback, choosing the first entry
for which some available format qualifies; the repository only supplies the
selector string, the selection semantics live in the external tool. -/
def selectFormat (selectors : List String) (qualifies : String → Bool) : Option String :=
  selectors.find? qualifies

/-- Embedding of build_ydl_opts, lines 44 to 93 of app.py. -/
def build_ydl_opts (tmpdir : String) (mp3_bitrate_k : Nat) (progress_cb : Hook) : YdlOpts :=
  { outtmpl := tmpdir ++ "/%(title)s.%(ext)s"
    noplaylist := true
    quiet := false
    no_warnings := false
    format := formatString
    progress_hooks := [progress_cb]
    postprocessors :=
      [{ key := "FFmpegExtractAudio"
         preferredcodec := "mp3"
         preferredquality := toString mp3_bitrate_k }]
    postprocessor_args := ["-vn"]
    verbose := true
    extract_flat := false
    writethumbnail := false
    writeinfojson := false
    http_headers :=
      [("User-Agent",
        "Mozilla/5.0 (Windows NT 10.0; Win64; x64) AppleWebKit/537.36 (KHTML, like Gecko) Chrome/122.0.0.0 Safari/537.36"),
       ("Accept",
        "text/html,application/xhtml+xml,application/xml;q=0.9,image/avif,image/webp,*/*;q=0.8"),
       ("Accept-Language", "en-US,en;q=0.5"),
       ("Accept-Encoding", "gzip, deflate"),
       ("DNT", "1"),
       ("Connection", "keep-alive"),
       ("Upgrade-Insecure-Requests", "1")]
    extractor_args := { player_client := ["web", "tv_embedded"], skip := ["hls", "dash"] }
    retries := 3
    fragment_retries := 3
    retry_sleep_http := fun n => min (4 ^ n) 60
    prefer_free_formats := true
    format_sort := ["quality", "res", "fps", "codec:h264", "size", "br", "asr", "proto"] }

/-- Embedding of the effective option construction of lines 161 to 167 of
app.py: build_ydl_opts followed by the overwrite of postprocessor_args with
the no video flag plus, when normalize is set, the loudnorm filter. -/
def buildOptionsWithNormalize (tmpdir : String) (mp3_bitrate_k : Nat) (normalize : Bool)
    (progress_cb : Hook) : YdlOpts :=
  { build_ydl_opts tmpdir mp3_bitrate_k progress_cb with
    postprocessor_args := ["-vn"] ++ (if normalize then ["-af", "loudnorm"] else []) }

/-- The outcome of running a code block that may raise: either a value or a
raised exception carrying its message. -/
inductive Outcome (α : Type)
  | ok (a : α)
  | raised (msg : String)
deriving DecidableEq, Repr

/-- The observable outcome of the external extraction call when it returns:
the optional title of the info dictionary and the listing of the working
directory afterwards. -/
structure ExtractOk where
  title : Option String
  files : List String
deriving DecidableEq, Repr

/-- Embedding of the with tempfile.TemporaryDirectory block of line 158 of
app.py over a filesystem modelled as the list of existing directories: the
directory is created before the body runs and removed after the body ends,
whatever the body produced. -/
def runWithTempDir {α : Type} (fs : List String) (name : String)
    (body : List String → String → List String × α) : List String × α :=
  ((body (name :: fs) name).1.filter (fun d => !(d == name)),
    (body (name :: fs) name).2)

/-- The body of the with block of lines 158 to 248 of app.py, with the
external extraction call abstracted as its outcome: a raised exception is
classified, a returned info dictionary is handed to the output resolver.
The boolean records that the external call was invoked. -/
def pipelineBody (bitrate : Nat) (ex : Outcome ExtractOk) (fs1 : List String) (_d : String) :
    List String × (PipelineResult × Bool) :=
  match ex with
  | Outcome.raised msg => (fs1, (PipelineResult.failure (classify msg).1 (classify msg).2, true))
  | Outcome.ok info => (fs1, (resolveOutput bitrate info.title info.files, true))

/-- Embedding of the pipeline of lines 124 to 248 of app.py: validate the
URL, and on success run the body inside the scoped temporary directory.
Returns the filesystem, the pipeline result, and whether the external call
was invoked. -/
def runPipeline (fs : List String) (tmpname url : String) (bitrate : Nat)
    (ex : Outcome ExtractOk) : List String × PipelineResult × Bool :=
  if validate url then
    ((runWithTempDir fs tmpname (pipelineBody bitrate ex)).1,
      (runWithTempDir fs tmpname (pipelineBody bitrate ex)).2.1,
      (runWithTempDir fs tmpname (pipelineBody bitrate ex)).2.2)
  else
    (fs, PipelineResult.failure FailureCategory.invalid_request "Please enter a valid YouTube URL.",
      false)

/-- A list followed by anything starts with that list. -/
theorem listStartsWith_append (a b : List Char) : listStartsWith (a ++ b) a = true := by
  induction a with
  | nil => cases b <;> simp [listStartsWith]
  | cons c a ih => simp [listStartsWith, ih]

/-- A prefix occurrence is an occurrence. -/
theorem listHasSub_of_startsWith (sub l : List Char) (h : listStartsWith l sub = true) :
    listHasSub sub l = true := by
  cases l with
  | nil => simpa [listHasSub] using h
  | cons c t => simp [listHasSub, h]

/-- An explicit decomposition witnesses an occurrence. -/
theorem listHasSub_decomp (sub pre suf : List Char) :
    listHasSub sub (pre ++ (sub ++ suf)) = true := by
  induction pre with
  | nil => simpa using listHasSub_of_startsWith sub (sub ++ suf) (listStartsWith_append sub suf)
  | cons c pre ih => simp [listHasSub, ih]

/-- The character data of a concatenation of strings. -/
theorem strData_append (a b : String) : (a ++ b).data = a.data ++ b.data := rfl

/-- A string whose data decomposes around the data of sub contains sub. -/
theorem containsSub_decomp (s sub : String) (pre suf : List Char)
    (h : s.data = pre ++ (sub.data ++ suf)) : containsSub s sub = true := by
  unfold containsSub
  rw [h]
  exact listHasSub_decomp sub.data pre suf

/-- Every member of a joined list occurs contiguously in the join. -/
theorem joinSep_mem_decomp (sep : String) :
    ∀ (l : List String) (x : String), x ∈ l →
      ∃ pre suf, (joinSep sep l).data = pre ++ (x.data ++ suf)
  | [], x, hx => absurd hx (List.not_mem_nil x)
  | [y], x, hx => by
    have hxy : x = y := by simpa using hx
    subst hxy
    exact ⟨[], [], by simp [joinSep]⟩
  | y :: z :: l, x, hx => by
    rcases List.mem_cons.mp hx with h | h
    · subst h
      refine ⟨[], (sep ++ joinSep sep (z :: l)).data, ?_⟩
      simp [joinSep, strData_append, List.append_assoc]
    · obtain ⟨pre, suf, hps⟩ := joinSep_mem_decomp sep (z :: l) x h
      refine ⟨(y ++ sep).data ++ pre, suf, ?_⟩
      simp [joinSep, strData_append, hps, List.append_assoc]

/-- Every candidate file name occurs inside the conversion failure detail. -/
theorem convFailedDetail_mem (names : List String) (x : String) (hx : x ∈ names) :
    containsSub (convFailedDetail names) x = true := by
  obtain ⟨pre, suf, h⟩ :=
    joinSep_mem_decomp ", " (names.map pyStrRepr) (pyStrRepr x) (List.mem_map_of_mem pyStrRepr hx)
  refine containsSub_decomp (convFailedDetail names) x
    ("Audio download succeeded but MP3 conversion failed. Found: ".data ++ "[".data ++
      pre ++ [quoteChar])
    ([quoteChar] ++ suf ++ "]".data ++ ". This suggests an FFmpeg configuration issue.".data) ?_
  simp [convFailedDetail, pyListRepr, strData_append, h, pyStrRepr, String.singleton,
    List.append_assoc]

/-- Stripping whitespace at both ends yields a sublist. -/
theorem stripList_sublist (l : List Char) : List.Sublist (stripList l) l := by
  unfold stripList
  have h1 : List.Sublist (l.dropWhile (fun c => pyWhitespaceChars.contains c)) l :=
    List.dropWhile_sublist _
  have h2 : List.Sublist
      ((l.dropWhile (fun c => pyWhitespaceChars.contains c)).reverse.dropWhile
        (fun c => pyWhitespaceChars.contains c))
      (l.dropWhile (fun c => pyWhitespaceChars.contains c)).reverse :=
    List.dropWhile_sublist _
  have h3 := h2.reverse
  simp only [List.reverse_reverse] at h3
  exact h3.trans h1

/-- The sanitized name only deletes characters of the original name. -/
theorem sanitize_filename_sublist (name : String) :
    List.Sublist (sanitize_filename name).data name.data := by
  unfold sanitize_filename pyStrip
  exact (stripList_sublist _).trans (List.filter_sublist _)

/-- No forbidden character survives sanitization. -/
theorem sanitize_filename_no_forbidden (name : String) (c : Char)
    (hc : c ∈ (sanitize_filename name).data) : isForbidden c = false := by
  have hc2 : c ∈ stripList (name.data.filter (fun c => !isForbidden c)) := hc
  have hmem := (stripList_sublist (name.data.filter (fun c => !isForbidden c))).subset hc2
  have hf := List.mem_filter.mp hmem
  simpa using hf.2

/-- Claim C5: sanitize removes every occurrence of the forbidden characters
backslash, slash, star, question mark, colon, double quote, angle brackets
and pipe, trims surrounding whitespace and otherwise only deletes characters
of the title; on the sample title it yields the expected result; the offered
artifact is named by the sanitized title with extension mp3 and MIME type
audio slash mpeg. -/
theorem C5_sanitization :
    (∀ (name : String) (c : Char), c ∈ (sanitize_filename name).data → isForbidden c = false)
    ∧ (∀ name : String, List.Sublist (sanitize_filename name).data name.data)
    ∧ sanitize_filename "My / Song: Title?" = "My  Song Title"
    ∧ (∀ t : Option String,
        downloadFileName t = sanitize_filename (pyOrStr t "youtube_audio") ++ ".mp3")
    ∧ downloadMime = "audio/mpeg" :=
  ⟨sanitize_filename_no_forbidden, sanitize_filename_sublist, by decide,
    fun _ => rfl, rfl⟩

/-- Witness for C5 at a concrete title and character. -/
theorem C5_sanitization_witness : isForbidden 'a' = false :=
  C5_sanitization.1 "ab" 'a' (by decide)

/-- Claim C10: a missing, None or empty title falls back to youtube_audio,
so the offered download is youtube_audio.mp3; the file name and the success
message are always built from the sanitized title, and differ from the raw
title whenever the raw title holds a forbidden character. -/
theorem C10_default_title :
    (∀ t : Option String, (t = none ∨ t = some "") →
      offeredTitle t = "youtube_audio" ∧ downloadFileName t = "youtube_audio.mp3")
    ∧ (∀ t : Option String,
        downloadFileName t = sanitize_filename (pyOrStr t "youtube_audio") ++ ".mp3")
    ∧ (∀ (s : String) (c : Char), c ∈ s.data → isForbidden c = true →
        downloadFileName (some s) ≠ s ++ ".mp3")
    ∧ (∀ (t : Option String) (sz : String) (b : Nat),
        successMessage t sz b =
          "✅ Converted: " ++ offeredTitle t ++ ".mp3  •  Size: " ++ sz ++
            "  •  Bitrate: " ++ toString b ++ " kbps") := by
  refine ⟨?_, fun _ => rfl, ?_, fun _ _ _ => rfl⟩
  · intro t h
    rcases h with h | h <;> subst h <;> exact ⟨by decide, by decide⟩
  · intro s c hc hf heq
    have hsne : s ≠ "" := by
      intro h
      subst h
      have hnil : ("" : String).data = [] := rfl
      rw [hnil] at hc
      exact absurd hc (List.not_mem_nil c)
    unfold downloadFileName offeredTitle at heq
    rw [show pyOrStr (some s) "youtube_audio" = s by simp [pyOrStr, hsne]] at heq
    have hdata := congrArg String.data heq
    rw [strData_append, strData_append] at hdata
    have hcancel : (sanitize_filename s).data = s.data := List.append_cancel_right hdata
    have hmem : c ∈ (sanitize_filename s).data := hcancel ▸ hc
    have := sanitize_filename_no_forbidden s c hmem
    simp [hf] at this

/-- Witness for C10 at the empty title and at a title with a slash. -/
theorem C10_default_title_witness :
    (offeredTitle none = "youtube_audio" ∧ downloadFileName none = "youtube_audio.mp3")
    ∧ downloadFileName (some "a/b") ≠ "a/b" ++ ".mp3" :=
  ⟨C10_default_title.1 none (Or.inl rfl),
    C10_default_title.2.2.1 "a/b" '/' (by decide) (by decide)⟩

/-- Claim C3 (amended): validate accepts exactly the URL strings whose
whitespace trimmed form matches the anchored case insensitive host pattern;
for every URL that validate rejects the pipeline fails fast with the
validation error and never invokes the external call; validate is pure, so
two calls on the same URL agree. -/
theorem C3_validation :
    (∀ url : String, validate url = regexMatchYt (pyStrip url))
    ∧ (∀ (fs : List String) (tmp url : String) (b : Nat) (ex : Outcome ExtractOk),
        validate url = false →
        runPipeline fs tmp url b ex =
          (fs, PipelineResult.failure FailureCategory.invalid_request
            "Please enter a valid YouTube URL.", false))
    ∧ (∀ url : String, validate url = validate url) := by
  refine ⟨fun _ => rfl, ?_, fun _ => rfl⟩
  intro fs tmp url b ex h
  simp [runPipeline, h]

/-- Witness for C3 at a concrete rejected URL. -/
theorem C3_validation_witness :
    runPipeline [] "ytmp3_tmp" "https://example.com/x" 192 (Outcome.raised "boom") =
      ([], PipelineResult.failure FailureCategory.invalid_request
        "Please enter a valid YouTube URL.", false) :=
  C3_validation.2.1 [] "ytmp3_tmp" "https://example.com/x" 192 (Outcome.raised "boom") (by decide)

/-- Counterexample to claim C3 as stated: a URL with a leading space does
not match the anchored pattern, yet validate accepts it after stripping and
the pipeline does invoke the external call on it. -/
theorem C3_validation_counterexample :
    regexMatchYt " https://www.youtube.com/watch" = false
    ∧ validate " https://www.youtube.com/watch" = true
    ∧ (runPipeline [] "ytmp3_tmp" " https://www.youtube.com/watch" 192
        (Outcome.raised "boom")).2.2 = true :=
  ⟨by decide, by decide, by decide⟩

/-- Claim C2: every exception raised by the external call is converted to a
classified failure at the pipeline boundary, with the category decided by
substring tests in source order: 403 or Forbidden gives access_restricted,
otherwise Unable to extract or Video unavailable gives extraction_failed,
and anything else gives unknown with the raw message inside the detail. -/
theorem C2_error_classification :
    (∀ (fs : List String) (tmp url : String) (b : Nat) (msg : String),
        validate url = true →
        (runPipeline fs tmp url b (Outcome.raised msg)).2.1 =
          PipelineResult.failure (classify msg).1 (classify msg).2)
    ∧ (∀ msg : String, containsSub msg "403" = true ∨ containsSub msg "Forbidden" = true →
        (classify msg).1 = FailureCategory.access_restricted)
    ∧ (∀ msg : String, containsSub msg "403" = false → containsSub msg "Forbidden" = false →
        (containsSub msg "Unable to extract" = true ∨
          containsSub msg "Video unavailable" = true) →
        (classify msg).1 = FailureCategory.extraction_failed)
    ∧ (∀ msg : String, containsSub msg "403" = false → containsSub msg "Forbidden" = false →
        containsSub msg "Unable to extract" = false →
        containsSub msg "Video unavailable" = false →
        (classify msg).1 = FailureCategory.unknown ∧
          containsSub (classify msg).2 msg = true) := by
  refine ⟨?_, ?_, ?_, ?_⟩
  · intro fs tmp url b msg h
    simp [runPipeline, h, runWithTempDir, pipelineBody]
  · intro msg h
    rcases h with h | h <;> simp [classify, h]
  · intro msg h1 h2 h
    rcases h with h | h <;> simp [classify, h1, h2, h]
  · intro msg h1 h2 h3 h4
    refine ⟨by simp [classify, h1, h2, h3, h4], ?_⟩
    have hd : (classify msg).2 = "Download failed: " ++ msg := by
      simp [classify, h1, h2, h3, h4]
    rw [hd]
    exact containsSub_decomp _ msg "Download failed: ".data [] (by simp [strData_append])

/-- Witness for C2 at the three specification example messages and one
boundary run. -/
theorem C2_error_classification_witness :
    (classify "HTTP Error 403: Forbidden").1 = FailureCategory.access_restricted
    ∧ (classify "ERROR: Video unavailable").1 = FailureCategory.extraction_failed
    ∧ ((classify "Connection reset").1 = FailureCategory.unknown ∧
        containsSub (classify "Connection reset").2 "Connection reset" = true)
    ∧ (runPipeline [] "t" "https://youtu.be/abc" 192 (Outcome.raised "Connection reset")).2.1 =
        PipelineResult.failure (classify "Connection reset").1 (classify "Connection reset").2 :=
  ⟨C2_error_classification.2.1 "HTTP Error 403: Forbidden" (Or.inl (by decide)),
    C2_error_classification.2.2.1 "ERROR: Video unavailable" (by decide) (by decide)
      (Or.inr (by decide)),
    C2_error_classification.2.2.2 "Connection reset" (by decide) (by decide) (by decide)
      (by decide),
    C2_error_classification.1 [] "t" "https://youtu.be/abc" 192 "Connection reset" (by decide)⟩

/-- Claim C1: after the external call, a directory holding at least one MP3
file resolves to Success on the first MP3 in listing order; with no MP3 but
some intermediate audio file it resolves to a conversion_failed failure
whose detail lists every candidate file name; with neither it resolves to a
no_output failure. -/
theorem C1_output_resolver :
    (∀ (b : Nat) (t : Option String) (pre : List String) (f : String) (post : List String),
        (∀ g ∈ pre, strEndsWith g ".mp3" = false) → strEndsWith f ".mp3" = true →
        resolveOutput b t (pre ++ f :: post) =
          PipelineResult.success f (downloadFileName t) downloadMime b)
    ∧ (∀ (b : Nat) (t : Option String) (files : List String),
        mp3Matches files = [] → audioMatches files ≠ [] →
        resolveOutput b t files =
          PipelineResult.failure FailureCategory.conversion_failed
            (convFailedDetail (audioMatches files))
        ∧ ∀ name ∈ audioMatches files,
            containsSub (convFailedDetail (audioMatches files)) name = true)
    ∧ (∀ (b : Nat) (t : Option String) (files : List String),
        mp3Matches files = [] → audioMatches files = [] →
        resolveOutput b t files =
          PipelineResult.failure FailureCategory.no_output noOutputDetail) := by
  refine ⟨?_, ?_, ?_⟩
  · intro b t pre f post hpre hf
    have hnil : pre.filter (fun g => strEndsWith g ".mp3") = [] := by
      apply List.filter_eq_nil_iff.mpr
      intro a ha
      simp [hpre a ha]
    have hm : mp3Matches (pre ++ f :: post) =
        f :: post.filter (fun g => strEndsWith g ".mp3") := by
      simp [mp3Matches, List.filter_append, hnil, List.filter_cons, hf]
    simp [resolveOutput, hm]
  · intro b t files h1 h2
    rcases hA : audioMatches files with _ | ⟨n, ns⟩
    · exact absurd hA h2
    · refine ⟨by simp [resolveOutput, h1, hA], ?_⟩
      intro name hname
      exact convFailedDetail_mem (n :: ns) name hname
  · intro b t files h1 h2
    simp [resolveOutput, h1, h2]

/-- Witness for C1 at three concrete directory listings. -/
theorem C1_output_resolver_witness :
    resolveOutput 192 none (["notes.txt"] ++ "song.mp3" :: ["other.mp3"]) =
      PipelineResult.success "song.mp3" (downloadFileName none) downloadMime 192
    ∧ (resolveOutput 192 none ["song.webm"] =
        PipelineResult.failure FailureCategory.conversion_failed
          (convFailedDetail (audioMatches ["song.webm"]))
        ∧ ∀ name ∈ audioMatches ["song.webm"],
            containsSub (convFailedDetail (audioMatches ["song.webm"])) name = true)
    ∧ resolveOutput 192 none [] =
        PipelineResult.failure FailureCategory.no_output noOutputDetail :=
  ⟨C1_output_resolver.1 192 none ["notes.txt"] "song.mp3" ["other.mp3"] (by decide) (by decide),
    C1_output_resolver.2.1 192 none ["song.webm"] (by decide) (by decide),
    C1_output_resolver.2.2 192 none [] (by decide) (by decide)⟩

/-- The emitted notification is stamped with the event time. -/
theorem emissionFor_time (now d : Nat) (t : Option Nat) : (emissionFor now d t).time = now := by
  cases t with
  | none => rfl
  | some T => by_cases hT : T = 0 <;> simp [emissionFor, hT]

/-- The hook on a downloading event past the throttle window: counters are
updated, the last update time moves to now, one notification is emitted. -/
theorem hookStep_emit (st : ProgressState) (now : Nat) (db tb tbe : Option Nat)
    (h : 50 < now - st.lastUpdate) :
    hookStep st (PEvent.downloading now db tb tbe) =
      (⟨orNum db st.downloaded, orOpt tb (orOpt tbe st.total), now⟩,
        [emissionFor now (orNum db st.downloaded) (orOpt tb (orOpt tbe st.total))]) := by
  simp [hookStep, h]

/-- The hook on a downloading event inside the throttle window: counters are
updated, the last update time is kept, nothing is emitted. -/
theorem hookStep_skip (st : ProgressState) (now : Nat) (db tb tbe : Option Nat)
    (h : ¬ 50 < now - st.lastUpdate) :
    hookStep st (PEvent.downloading now db tb tbe) =
      (⟨orNum db st.downloaded, orOpt tb (orOpt tbe st.total), st.lastUpdate⟩, []) := by
  simp [hookStep, h]

/-- A chain from a base element restricts to a chain along the list. -/
theorem chain_drop_base {R : Nat → Nat → Prop} (a : Nat) :
    ∀ l : List Nat, List.Chain R a l → List.Chain' R l
  | [], _ => List.chain'_nil
  | _ :: _, h => (List.chain_cons.mp h).2

/-- Over downloading events, every emitted notification comes more than 50
time units after the last update time of the starting state, and consecutive
emissions are more than 50 time units apart. -/
theorem runHook_chain : ∀ (es : List PEvent) (st : ProgressState),
    allDownloading es = true →
    List.Chain (fun a b => a + 50 < b) st.lastUpdate
      (((runHook st es).2).map Emission.time)
  | [], _, _ => by simp [runHook]
  | e :: es, st, hall => by
    have h1 : isDownloading e = true ∧ allDownloading es = true := by
      simpa [allDownloading] using hall
    cases e with
    | finished now => simp [isDownloading] at h1
    | downloading now db tb tbe =>
      by_cases h : 50 < now - st.lastUpdate
      · simp only [runHook]
        rw [hookStep_emit st now db tb tbe h]
        simp only [List.map_append, List.map_cons, List.map_nil, List.singleton_append,
          emissionFor_time]
        refine List.chain_cons.mpr ⟨by omega, ?_⟩
        have hrec := runHook_chain es
          ⟨orNum db st.downloaded, orOpt tb (orOpt tbe st.total), now⟩ h1.2
        simpa using hrec
      · simp only [runHook]
        rw [hookStep_skip st now db tb tbe h]
        simp only [List.nil_append]
        exact runHook_chain es
          ⟨orNum db st.downloaded, orOpt tb (orOpt tbe st.total), st.lastUpdate⟩ h1.2

/-- The number of notifications of one downloading step: one past the
throttle window, none inside it. -/
theorem hookStep_len (st : ProgressState) (now : Nat) (db tb tbe : Option Nat) :
    ((hookStep st (PEvent.downloading now db tb tbe)).2).length =
      if 50 < now - st.lastUpdate then 1 else 0 := by
  by_cases h : 50 < now - st.lastUpdate <;> simp [hookStep, h]

/-- The last update time after one downloading step. -/
theorem hookStep_lastUpdate (st : ProgressState) (now : Nat) (db tb tbe : Option Nat) :
    ((hookStep st (PEvent.downloading now db tb tbe)).1).lastUpdate =
      if 50 < now - st.lastUpdate then now else st.lastUpdate := by
  by_cases h : 50 < now - st.lastUpdate <;> simp [hookStep, h]

/-- Unfolding of the run over one more event. -/
theorem runHook_len (st : ProgressState) (e : PEvent) (es : List PEvent) :
    ((runHook st (e :: es)).2).length =
      ((hookStep st e).2).length + ((runHook (hookStep st e).1 es).2).length := by
  simp [runHook]

/-- Over downloading events whose consecutive gaps stay under the throttle
window, at most every other event emits. -/
theorem runHook_count_le : ∀ (es : List PEvent) (st : ProgressState),
    allDownloading es = true →
    List.Chain' (fun a b => b < a + 50) (es.map eventTime) →
    ((runHook st es).2).length ≤ (es.length + 1) / 2
  | [], _, _, _ => by simp [runHook]
  | [e], st, hall, _ => by
    have h1 : isDownloading e = true := by simpa [allDownloading] using hall
    cases e with
    | finished now => simp [isDownloading] at h1
    | downloading now db tb tbe =>
      rw [runHook_len, hookStep_len]
      by_cases h : 50 < now - st.lastUpdate <;> simp [runHook, h]
  | e1 :: e2 :: es, st, hall, hch => by
    have h1 : isDownloading e1 = true ∧ isDownloading e2 = true ∧ allDownloading es = true := by
      simpa [allDownloading] using hall
    cases e1 with
    | finished now => simp [isDownloading] at h1
    | downloading t1 db1 tb1 tbe1 =>
      cases e2 with
      | finished now => simp [isDownloading] at h1
      | downloading t2 db2 tb2 tbe2 =>
        simp only [List.map_cons, eventTime] at hch
        have hc := List.chain'_cons.mp hch
        have ht12 : t2 < t1 + 50 := hc.1
        rw [runHook_len, runHook_len, hookStep_len]
        rw [hookStep_len]
        rw [hookStep_lastUpdate]
        by_cases hA : 50 < t1 - st.lastUpdate
        · have hB : ¬ (50 < t2 - t1) := by omega
          rw [if_pos hA, if_pos hA, if_neg hB]
          have hrec := runHook_count_le es
            ((hookStep ((hookStep st (PEvent.downloading t1 db1 tb1 tbe1)).1)
              (PEvent.downloading t2 db2 tb2 tbe2)).1) h1.2.2 hc.2.tail
          simp only [List.length_cons] at hrec ⊢
          omega
        · rw [if_neg hA, if_neg hA]
          have hrec := runHook_count_le es
            ((hookStep ((hookStep st (PEvent.downloading t1 db1 tb1 tbe1)).1)
              (PEvent.downloading t2 db2 tb2 tbe2)).1) h1.2.2 hc.2.tail
          by_cases hB : 50 < t2 - st.lastUpdate
          · rw [if_pos hB]
            simp only [List.length_cons] at hrec ⊢
            omega
          · rw [if_neg hB]
            simp only [List.length_cons] at hrec ⊢
            omega

/-- Over a nonempty run of downloading events that all fire within the
throttle window of the previous event (and the first within the window of
the monitor start), strictly fewer notifications are emitted than events
were received. -/
theorem runHook_count_lt (es : List PEvent) (st : ProgressState)
    (hall : allDownloading es = true) (hne : es ≠ [])
    (hch : List.Chain (fun a b => b < a + 50) st.lastUpdate (es.map eventTime)) :
    ((runHook st es).2).length < es.length := by
  cases es with
  | nil => exact absurd rfl hne
  | cons e es =>
    have h1 : isDownloading e = true ∧ allDownloading es = true := by
      simpa [allDownloading] using hall
    cases e with
    | finished now => simp [isDownloading] at h1
    | downloading t1 db1 tb1 tbe1 =>
      simp only [List.map_cons, eventTime] at hch
      have hc := List.chain_cons.mp hch
      have hA : ¬ (50 < t1 - st.lastUpdate) := by omega
      simp only [runHook]
      rw [hookStep_skip st t1 db1 tb1 tbe1 hA]
      simp only [List.nil_append]
      have hch2 : List.Chain' (fun a b => b < a + 50) (es.map eventTime) :=
        chain_drop_base t1 (es.map eventTime) hc.2
      have hrec := runHook_count_le es
        ⟨orNum db1 st.downloaded, orOpt tb1 (orOpt tbe1 st.total), st.lastUpdate⟩ h1.2 hch2
      simp only [List.length_cons] at hrec ⊢
      omega

/-- Claim C4: over downloading events, consecutive emitted notifications
are separated by more than the 50 unit throttle window; a finished event
always emits exactly one terminal notification at fraction one with the
converting message, unconditionally; a nonempty run of downloading events
all fired faster than the throttle window emits strictly fewer
notifications than it receives events; and when the updated total byte
estimate is known and nonzero, the emitted fraction is the capped ratio
min of one and downloaded over total. -/
theorem C4_progress_throttling :
    (∀ (st : ProgressState) (es : List PEvent), allDownloading es = true →
      List.Chain' (fun a b => a + 50 < b) (((runHook st es).2).map Emission.time))
    ∧ (∀ (st : ProgressState) (now : Nat),
        hookStep st (PEvent.finished now) = (st, [⟨now, 1, EmitMsg.converting⟩]))
    ∧ (∀ (st : ProgressState) (es : List PEvent), allDownloading es = true → es ≠ [] →
        List.Chain (fun a b => b < a + 50) st.lastUpdate (es.map eventTime) →
        ((runHook st es).2).length < es.length)
    ∧ (∀ (st : ProgressState) (now : Nat) (db tb tbe : Option Nat) (T : Nat),
        50 < now - st.lastUpdate →
        orOpt tb (orOpt tbe st.total) = some T → T ≠ 0 →
        (hookStep st (PEvent.downloading now db tb tbe)).2 =
          [⟨now, min 1 ((orNum db st.downloaded : ℚ) / (T : ℚ)),
            EmitMsg.downloadingKnown (orNum db st.downloaded) T⟩]) := by
  refine ⟨?_, fun _ _ => rfl, fun st es hall hne hch => runHook_count_lt es st hall hne hch, ?_⟩
  · intro st es hall
    exact chain_drop_base st.lastUpdate _ (runHook_chain es st hall)
  · intro st now db tb tbe T h hT hT0
    rw [hookStep_emit st now db tb tbe h]
    simp [emissionFor, hT, hT0]

/-- Witness for C4 at concrete event sequences. -/
theorem C4_progress_throttling_witness :
    List.Chain' (fun a b => a + 50 < b)
      (((runHook ⟨0, none, 0⟩
        [PEvent.downloading 60 (some 10) (some 100) none,
         PEvent.downloading 80 (some 20) none none,
         PEvent.downloading 140 (some 30) none none]).2).map Emission.time)
    ∧ ((runHook ⟨0, none, 0⟩
        [PEvent.downloading 30 (some 10) (some 100) none,
         PEvent.downloading 60 (some 20) none none]).2).length < 2
    ∧ (hookStep (⟨0, none, 0⟩ : ProgressState)
        (PEvent.downloading 60 (some 10) (some 100) none)).2 =
        [⟨60, min 1 (((10 : Nat) : ℚ) / ((100 : Nat) : ℚ)),
          EmitMsg.downloadingKnown 10 100⟩] :=
  ⟨C4_progress_throttling.1 ⟨0, none, 0⟩ _ (by decide),
    C4_progress_throttling.2.2.1 ⟨0, none, 0⟩ _ (by decide) (by decide)
      (List.Chain.cons (by decide) (List.Chain.cons (by decide) List.Chain.nil)),
    C4_progress_throttling.2.2.2 ⟨0, none, 0⟩ 60 (some 10) (some 100) none 100
      (by decide) rfl (by decide)⟩

/-- Claim C6: the scoped temporary directory exists for the body of the
run and is removed from the filesystem after the block ends, whatever the
body did or raised, and for every valid request the pipeline leaves no
working directory behind. -/
theorem C6_workdir_cleanup :
    (∀ (α : Type) (fs : List String) (name : String)
        (body : List String → String → List String × α),
        runWithTempDir fs name body =
          ((body (name :: fs) name).1.filter (fun d => !(d == name)),
            (body (name :: fs) name).2)
        ∧ name ∉ (runWithTempDir fs name body).1
        ∧ name ∈ name :: fs)
    ∧ (∀ (fs : List String) (tmp url : String) (b : Nat) (ex : Outcome ExtractOk),
        validate url = true → tmp ∉ (runPipeline fs tmp url b ex).1) := by
  constructor
  · intro α fs name body
    refine ⟨rfl, ?_, List.mem_cons_self name fs⟩
    simp [runWithTempDir]
  · intro fs tmp url b ex h
    simp [runPipeline, h, runWithTempDir]

/-- Witness for C6 at a concrete valid request. -/
theorem C6_workdir_cleanup_witness :
    "ytmp3_x" ∉ (runPipeline [] "ytmp3_x" "https://youtu.be/abc" 192
      (Outcome.ok ⟨none, []⟩)).1 :=
  C6_workdir_cleanup.2 [] "ytmp3_x" "https://youtu.be/abc" 192 (Outcome.ok ⟨none, []⟩) (by decide)

/-- Counterexample to claim C7 as stated: the final fallback entry of the
format selector is best, the generic best format selector, which is not an
audio only selector. -/
theorem C7_format_policy_counterexample :
    formatSelectors.getLast? = some "best" ∧ isAudioOnlySelector "best" = false ∧
      "best" ≠ "bestaudio" := by decide

/-- Claim C7 (amended): the format selector of the configuration is the
ordered fallback list bestaudio ext m4a, bestaudio ext webm, bestaudio,
best: one specific audio container first, then audio only selectors, ending
at a generic best format fallback that is not restricted to audio only
streams; under the fallback semantics earlier entries are preferred
whenever several qualify. -/
theorem C7_format_policy :
    formatString = "bestaudio[ext=m4a]/bestaudio[ext=webm]/bestaudio/best"
    ∧ (∀ (tmp : String) (b : Nat) (cb : Hook),
        (build_ydl_opts tmp b cb).format = formatString)
    ∧ formatSelectors = ["bestaudio[ext=m4a]", "bestaudio[ext=webm]", "bestaudio", "best"]
    ∧ (∀ s ∈ formatSelectors.dropLast, isAudioOnlySelector s = true)
    ∧ formatSelectors.getLast? = some "best"
    ∧ (∀ q : String → Bool,
        selectFormat formatSelectors q =
          if q "bestaudio[ext=m4a]" then some "bestaudio[ext=m4a]"
          else if q "bestaudio[ext=webm]" then some "bestaudio[ext=webm]"
          else if q "bestaudio" then some "bestaudio"
          else if q "best" then some "best"
          else none) := by
  refine ⟨by decide, fun _ _ _ => rfl, rfl, by decide, by decide, ?_⟩
  intro q
  simp only [selectFormat, formatSelectors]
  rcases hqa : q "bestaudio[ext=m4a]" <;> rcases hqb : q "bestaudio[ext=webm]" <;>
    rcases hqc : q "bestaudio" <;> rcases hqd : q "best" <;>
      simp [List.find?, hqa, hqb, hqc, hqd]

/-- Witness for C7 at a concrete selector entry. -/
theorem C7_format_policy_witness :
    isAudioOnlySelector "bestaudio" = true :=
  C7_format_policy.2.2.2.1 "bestaudio" (by decide)

/-- Claim C8: the effective option construction takes the normalize flag;
its postprocessing step extracts audio to MP3 at the requested constant
bitrate, and the loudnorm filter is appended to the postprocessor argument
chain exactly when normalize is set, the chain being only the audio
extraction argument otherwise. -/
theorem C8_normalization :
    (∀ (tmp : String) (b : Nat) (cb : Hook),
        (buildOptionsWithNormalize tmp b true cb).postprocessor_args =
          ["-vn", "-af", "loudnorm"])
    ∧ (∀ (tmp : String) (b : Nat) (cb : Hook),
        (buildOptionsWithNormalize tmp b false cb).postprocessor_args = ["-vn"])
    ∧ (∀ (tmp : String) (b : Nat) (n : Bool) (cb : Hook),
        "loudnorm" ∈ (buildOptionsWithNormalize tmp b n cb).postprocessor_args ↔ n = true)
    ∧ (∀ (tmp : String) (b : Nat) (n : Bool) (cb : Hook),
        (buildOptionsWithNormalize tmp b n cb).postprocessors =
          [⟨"FFmpegExtractAudio", "mp3", toString b⟩]) := by
  refine ⟨fun _ _ _ => rfl, fun _ _ _ => rfl, ?_, fun _ _ _ _ => rfl⟩
  intro tmp b n cb
  cases n <;> simp [buildOptionsWithNormalize, build_ydl_opts]

/-- Claim C9: the built configuration retries transient network failures
exactly 3 times and fragment failures exactly 3 times, and the backoff
delay for attempt n is min of 4 to the n and 60, hence never exceeds the 60
unit ceiling and is non decreasing in n. -/
theorem C9_reliability :
    ∀ (tmp : String) (b : Nat) (cb : Hook),
      (build_ydl_opts tmp b cb).retries = 3
      ∧ (build_ydl_opts tmp b cb).fragment_retries = 3
      ∧ (∀ n : Nat, (build_ydl_opts tmp b cb).retry_sleep_http n = min (4 ^ n) 60)
      ∧ (∀ n : Nat, (build_ydl_opts tmp b cb).retry_sleep_http n ≤ 60)
      ∧ (∀ m n : Nat, m ≤ n →
          (build_ydl_opts tmp b cb).retry_sleep_http m ≤
            (build_ydl_opts tmp b cb).retry_sleep_http n) := by
  intro tmp b cb
  refine ⟨rfl, rfl, fun n => rfl, fun n => min_le_right _ _, ?_⟩
  intro m n hmn
  show min (4 ^ m) 60 ≤ min (4 ^ n) 60
  exact min_le_min (Nat.pow_le_pow_right (by norm_num) hmn) (le_refl 60)

/-- Witness for C9 at concrete attempt numbers. -/
theorem C9_reliability_witness :
    (build_ydl_opts "t" 192 hookStep).retry_sleep_http 1 ≤
      (build_ydl_opts "t" 192 hookStep).retry_sleep_http 2 :=
  (C9_reliability "t" 192 hookStep).2.2.2.2 1 2 (by norm_num)

end YtMp3

